import Mathlib

/-!
Verification of the digital-zoom step controller in
`camera/OMXCameraAdapter/OMXZoom.cpp` (the `CAMERAHAL_TUNA` build, whose
sensor/video-mode quirk the specification describes).

The C++ member state touched by this file is modelled by `ZoomState`;
quantities the file reads but never writes (`mMaxZoomSupported`,
`mComponentState`, `mSensorIndex`, `mCapMode`, the outcome of the
`OMX_SetConfig` hardware write and of the capture-state-machine calls)
live in `ZoomEnv`.  Each operation returns its `status_t` result
(`0` = `NO_ERROR`) together with the observable effects of the call:
the hardware writes it issued, the subscriber notifications it sent and
whether it requested the `CAMERA_STOP_SMOOTH_ZOOM` transition.
-/

namespace OMXZoom

/-- `status_t`: `0` is `NO_ERROR`; negative values are errors
(`-22` is `-EINVAL`). -/
abbrev Status := Int

def NO_ERROR : Status := 0

/-- `ZOOM_STAGES`, the length of the zoom table. -/
def ZOOM_STAGES : Nat := 61

/-- `OMXCameraAdapter::ZOOM_STEPS`, the fixed-point (16.16) scale table. -/
def ZOOM_STEPS : List Int :=
  [65536, 68157, 70124, 72745,
   75366, 77988, 80609, 83231,
   86508, 89784, 92406, 95683,
   99615, 102892, 106168, 110100,
   114033, 117965, 122552, 126484,
   131072, 135660, 140247, 145490,
   150733, 155976, 161219, 167117,
   173015, 178913, 185467, 192020,
   198574, 205783, 212992, 220201,
   228065, 236585, 244449, 252969,
   262144, 271319, 281149, 290980,
   300810, 311951, 322437, 334234,
   346030, 357827, 370934, 384041,
   397148, 411566, 425984, 441057,
   456131, 472515, 488899, 506593,
   524288]

/-- Tuna quirk constant: `65536 + 1280`. -/
def FrontSensorVideoMinZoom : Int := 66816

/-- Tuna quirk constant: `65536 + 768`. -/
def BackSensorVideoMinZoom : Int := 66304

/-- Adapter quantities read (never written) by the zoom code. -/
structure ZoomEnv where
  maxZoomSupported : Int
  /-- `OMX_StateInvalid == mComponentState` -/
  componentStateInvalid : Bool
  /-- `mSensorIndex` -/
  sensorIndex : Int
  /-- `mCapMode == VIDEO_MODE || mCapMode == VIDEO_MODE_HQ` -/
  capModeIsVideo : Bool
  /-- whether `OMX_SetConfig(..., OMX_IndexConfigCommonDigitalZoom, ...)` succeeds -/
  hwWriteOk : Bool
  /-- result of `BaseCameraAdapter::setState(CAMERA_STOP_SMOOTH_ZOOM)` -/
  setStateRet : Status
  /-- result of `BaseCameraAdapter::commitState()` -/
  commitRet : Status
  /-- result of `BaseCameraAdapter::rollbackState()` -/
  rollbackRet : Status
deriving DecidableEq, Repr

/-- The member state mutated by `OMXZoom.cpp`. -/
structure ZoomState where
  /-- `mCurrentZoomIdx` -/
  currentZoomIdx : Int
  /-- `mTargetZoomIdx` -/
  targetZoomIdx : Int
  /-- `mZoomInc` -/
  zoomInc : Int
  /-- `mReturnZoomStatus` -/
  returnZoomStatus : Bool
  /-- `mZoomUpdating` -/
  zoomUpdating : Bool
  /-- `mZoomUpdate` -/
  zoomUpdate : Bool
  /-- `mPreviousZoomIndx` -/
  previousZoomIndx : Int
  /-- `mZoomParameterIdx` -/
  zoomParameterIdx : Int
  /-- `mPrevZoomModeIsVideo` (tuna quirk tracking) -/
  prevZoomModeIsVideo : Bool
  /-- `mPrevZoomSensorIndex` (tuna quirk tracking) -/
  prevZoomSensorIndex : Int
deriving DecidableEq, Repr

/-- `OMXCameraAdapter::getZoomStep` (tuna build).  The C++ returns
`ZOOM_STEPS[index]` with no range check of its own, so an index outside
`[0, ZOOM_STAGES)` is an out-of-bounds array read: modelled as `none`
(no defined result).  The quirk branch substitutes sensor-specific
values at index `0` when the previously applied mode was a video mode. -/
def getZoomStep (env : ZoomEnv) (s : ZoomState) (index : Int) : Option Int :=
  if index ≠ 0 ∨ ¬ s.prevZoomModeIsVideo then
    if 0 ≤ index then ZOOM_STEPS[index.toNat]? else none
  else if env.sensorIndex = 1 then
    some FrontSensorVideoMinZoom
  else
    some BackSensorVideoMinZoom

/-- One `OMX_SetConfig` digital-zoom write: the index it was issued for and
the scale factor placed in `xWidth = xHeight` (`none` when `getZoomStep`
would read out of bounds). -/
structure HwWrite where
  index : Int
  scale : Option Int
deriving DecidableEq, Repr

/-- `OMXCameraAdapter::doZoom` (tuna build).  Returns the new state, the
`status_t` result and the list of hardware writes issued (a failed
`OMX_SetConfig` still counts as an issued write). -/
def doZoom (env : ZoomEnv) (s : ZoomState) (index : Int) :
    ZoomState × Status × List HwWrite :=
  let ret1 : Status := if env.componentStateInvalid then -1 else NO_ERROR
  let ret2 : Status := if 0 > index ∨ env.maxZoomSupported - 1 < index then -22 else ret1
  let curZoomModeIsVideo := env.capModeIsVideo
  if s.previousZoomIndx = index ∧
      (index ≠ 0 ∨ (curZoomModeIsVideo = s.prevZoomModeIsVideo ∧
                    env.sensorIndex = s.prevZoomSensorIndex)) then
    (s, NO_ERROR, [])
  else
    let s1 := { s with prevZoomModeIsVideo := curZoomModeIsVideo,
                       prevZoomSensorIndex := env.sensorIndex }
    if ret2 = NO_ERROR then
      let w : HwWrite := ⟨index, getZoomStep env s1 index⟩
      if env.hwWriteOk then
        ({ s1 with previousZoomIndx := index }, NO_ERROR, [w])
      else
        (s1, -1, [w])
    else
      (s1, ret2, [])

/-- `OMXCameraAdapter::setParametersZoom`.  `zoomActive` is
`(ZOOM_ACTIVE & state) == ZOOM_ACTIVE`; `zoomParam` is the integer read
from `KEY_ZOOM`.  Note that the local `ret` is never assigned after its
initialisation, so the function always returns `NO_ERROR`. -/
def setParametersZoom (env : ZoomEnv) (zoomActive : Bool) (zoomParam : Int)
    (s : ZoomState) : ZoomState × Status × List HwWrite :=
  if ¬ zoomActive then
    if 0 ≤ zoomParam ∧ zoomParam < env.maxZoomSupported then
      let s1 := { s with targetZoomIdx := zoomParam, currentZoomIdx := zoomParam }
      if ¬ s1.zoomUpdating then
        let r := doZoom env s1 zoomParam
        ({ r.1 with zoomUpdating := true }, NO_ERROR, r.2.2)
      else
        ({ s1 with zoomUpdate := true }, NO_ERROR, [])
    else
      (s, NO_ERROR, [])
  else
    (s, NO_ERROR, [])

/-- The `status_t` produced by the goal-reached exit sequence:
`ret = setState(CAMERA_STOP_SMOOTH_ZOOM); if ok then ret = commitState()
else ret |= rollbackState()`. -/
def bridgeExitRet (env : ZoomEnv) : Status :=
  if env.setStateRet = NO_ERROR then env.commitRet
  else Int.lor env.setStateRet env.rollbackRet

/-- The observable effects of one `advanceZoom` call. -/
structure AdvanceOut where
  ret : Status
  writes : List HwWrite
  /-- `notifyZoomSubscribers(index, isFinalStep)` calls, in order -/
  notifs : List (Int × Bool)
  /-- whether `setState(CAMERA_STOP_SMOOTH_ZOOM)` was requested -/
  exitRequested : Bool
deriving DecidableEq, Repr

/-- The `if (mCurrentZoomIdx < mTargetZoomIdx) mZoomInc = 1; else mZoomInc = -1;`
pattern shared by `advanceZoom` and `stopSmoothZoom`. -/
def stepDir (c t : Int) : Int := if c < t then 1 else -1

/-- The three-way branch of `OMXCameraAdapter::advanceZoom` (everything
before the trailing `mZoomUpdate` block). `zoomActive` is
`ZOOM_ACTIVE & state`. -/
def advanceCore (env : ZoomEnv) (zoomActive : Bool) (s : ZoomState) :
    ZoomState × AdvanceOut :=
  if s.returnZoomStatus then
    let sa := { s with currentZoomIdx := s.currentZoomIdx + s.zoomInc }
    let sb := { sa with targetZoomIdx := sa.currentZoomIdx,
                        returnZoomStatus := false }
    let r := doZoom env sb sb.currentZoomIdx
    (r.1, ⟨r.2.1, r.2.2, [(r.1.currentZoomIdx, true)], false⟩)
  else if s.currentZoomIdx ≠ s.targetZoomIdx then
    let sa :=
      if zoomActive then
        { s with zoomInc := stepDir s.currentZoomIdx s.targetZoomIdx,
                 currentZoomIdx :=
                   s.currentZoomIdx + stepDir s.currentZoomIdx s.targetZoomIdx }
      else
        { s with currentZoomIdx := s.targetZoomIdx }
    let r := doZoom env sa sa.currentZoomIdx
    let sb := r.1
    if zoomActive then
      if sb.currentZoomIdx = sb.targetZoomIdx then
        if r.2.1 = NO_ERROR then
          ({ sb with returnZoomStatus := false },
           ⟨bridgeExitRet env, r.2.2, [(sb.currentZoomIdx, true)], true⟩)
        else
          ({ sb with returnZoomStatus := false },
           ⟨r.2.1, r.2.2, [(sb.currentZoomIdx, true)], false⟩)
      else
        (sb, ⟨r.2.1, r.2.2, [(sb.currentZoomIdx, false)], false⟩)
    else
      (sb, ⟨r.2.1, r.2.2, [], false⟩)
  else if s.currentZoomIdx = s.targetZoomIdx ∧ zoomActive then
    (s, ⟨bridgeExitRet env, [], [], true⟩)
  else
    (s, ⟨NO_ERROR, [], [], false⟩)

/-- The trailing `if (mZoomUpdate) { doZoom(mTargetZoomIdx); ... }` block
at the end of `advanceZoom` (its `doZoom` result is discarded). -/
def advanceTail (env : ZoomEnv) (p : ZoomState × AdvanceOut) :
    ZoomState × AdvanceOut :=
  if p.1.zoomUpdate then
    let r := doZoom env p.1 p.1.targetZoomIdx
    ({ r.1 with zoomUpdate := false, zoomUpdating := true },
     { p.2 with writes := p.2.writes ++ r.2.2 })
  else
    ({ p.1 with zoomUpdating := false }, p.2)

/-- `OMXCameraAdapter::advanceZoom`: the three-way branch followed by the
deferred-update block. -/
def advanceZoom (env : ZoomEnv) (zoomActive : Bool) (s : ZoomState) :
    ZoomState × AdvanceOut :=
  advanceTail env (advanceCore env zoomActive s)

/-- `OMXCameraAdapter::startSmoothZoom`. -/
def startSmoothZoom (env : ZoomEnv) (targetIdx : Int) (s : ZoomState) :
    ZoomState × Status :=
  if 0 ≤ targetIdx ∧ targetIdx < env.maxZoomSupported then
    ({ s with targetZoomIdx := targetIdx,
              zoomParameterIdx := s.currentZoomIdx,
              returnZoomStatus := false }, NO_ERROR)
  else
    (s, -22)

/-- `OMXCameraAdapter::stopSmoothZoom`.  (The C++ assigns
`mReturnZoomStatus = true` twice in a row; the second assignment is
a no-op, modelled as a single assignment.) -/
def stopSmoothZoom (s : ZoomState) : ZoomState × Status :=
  if s.targetZoomIdx ≠ s.currentZoomIdx then
    ({ s with zoomInc := stepDir s.currentZoomIdx s.targetZoomIdx,
              returnZoomStatus := true }, NO_ERROR)
  else
    (s, NO_ERROR)

/-- `n` successive `advanceZoom` ticks: final state and the per-tick outputs. -/
def advanceRun (env : ZoomEnv) (zoomActive : Bool) :
    Nat → ZoomState → ZoomState × List AdvanceOut
  | 0, s => (s, [])
  | Nat.succ n, s =>
      let r := advanceZoom env zoomActive s
      let rest := advanceRun env zoomActive n r.1
      (rest.1, r.2 :: rest.2)

/-- Expected per-tick notification lists of a smooth zoom from `c`
toward `t` over `n` ticks: each tick notifies the new index, flagged
final exactly when the target is reached. -/
def stepNotifs (c t : Int) : Nat → List (List (Int × Bool))
  | 0 => []
  | Nat.succ n =>
      [(c + stepDir c t, decide (c + stepDir c t = t))] ::
        stepNotifs (c + stepDir c t) t n

/-- Expected per-tick exit-transition requests over `n` ticks of a smooth
zoom: only the last tick requests `CAMERA_STOP_SMOOTH_ZOOM`. -/
def exitFlags : Nat → List Bool
  | 0 => []
  | 1 => [true]
  | Nat.succ (Nat.succ n) => false :: exitFlags (Nat.succ n)

/-! ### Concrete fixtures used by witnesses and counterexamples -/

/-- A healthy environment: three zoom stages, valid component, back sensor,
non-video mode, hardware writes and state transitions succeed. -/
def env0 : ZoomEnv := ⟨3, false, 0, false, true, 0, 0, 0⟩

/-- A baseline session state (all indices 0, `previousAppliedIndex` distinct
from 0 so that an apply at 0 really writes). -/
def st0 : ZoomState := ⟨0, 0, 0, false, false, false, -1, 0, false, 0⟩

/-- Like `env0` but the hardware sink rejects the `OMX_SetConfig` write. -/
def envHwFail : ZoomEnv := ⟨3, false, 0, false, false, 0, 0, 0⟩

/-- An environment whose OMX component is in `OMX_StateInvalid`. -/
def envInvalid : ZoomEnv := ⟨3, true, 0, false, true, 0, 0, 0⟩

/-- A session whose last applied index is the out-of-range value `99`. -/
def stPrev99 : ZoomState := ⟨0, 0, 0, false, false, false, 99, 0, false, 0⟩

/-- A mid-animation session: current index 0, target index 2. -/
def stMid : ZoomState := ⟨0, 2, 0, false, false, false, -1, 0, false, 0⟩

/-- A settled session whose `mZoomUpdating` flag is armed. -/
def stUpdating : ZoomState := ⟨0, 0, 0, false, true, false, -1, 0, false, 0⟩

/-! ### Helper lemmas about `doZoom` -/

/-- `doZoom` never touches the fields that drive the animation state
machine: it only updates `mPreviousZoomIndx` and the quirk-tracking pair. -/
theorem doZoom_preserves (env : ZoomEnv) (s : ZoomState) (i : Int) :
    (doZoom env s i).1.currentZoomIdx = s.currentZoomIdx ∧
    (doZoom env s i).1.targetZoomIdx = s.targetZoomIdx ∧
    (doZoom env s i).1.zoomInc = s.zoomInc ∧
    (doZoom env s i).1.returnZoomStatus = s.returnZoomStatus ∧
    (doZoom env s i).1.zoomUpdating = s.zoomUpdating ∧
    (doZoom env s i).1.zoomUpdate = s.zoomUpdate ∧
    (doZoom env s i).1.zoomParameterIdx = s.zoomParameterIdx := by
  simp only [doZoom]
  split_ifs <;> exact ⟨rfl, rfl, rfl, rfl, rfl, rfl, rfl⟩

/-- The idempotence early return: same index as last applied and unchanged
quirk context means `doZoom` does nothing and reports success. -/
theorem doZoom_noop (env : ZoomEnv) (s : ZoomState) (i : Int)
    (hprev : s.previousZoomIndx = i)
    (hctx : i ≠ 0 ∨ (env.capModeIsVideo = s.prevZoomModeIsVideo ∧
                     env.sensorIndex = s.prevZoomSensorIndex)) :
    doZoom env s i = (s, NO_ERROR, []) := by
  simp only [doZoom]
  rw [if_pos ⟨hprev, hctx⟩]

/-- A successful hardware apply: no early return, component valid, index in
range, `OMX_SetConfig` succeeds. -/
theorem doZoom_write_eq (env : ZoomEnv) (s : ZoomState) (i : Int)
    (hprev : ¬(s.previousZoomIndx = i ∧
        (i ≠ 0 ∨ (env.capModeIsVideo = s.prevZoomModeIsVideo ∧
                  env.sensorIndex = s.prevZoomSensorIndex))))
    (hv : env.componentStateInvalid = false)
    (h0 : 0 ≤ i) (h1 : i ≤ env.maxZoomSupported - 1)
    (hw : env.hwWriteOk = true) :
    doZoom env s i =
      ({ s with prevZoomModeIsVideo := env.capModeIsVideo,
                prevZoomSensorIndex := env.sensorIndex,
                previousZoomIndx := i },
       NO_ERROR,
       [⟨i, getZoomStep env
             { s with prevZoomModeIsVideo := env.capModeIsVideo,
                      prevZoomSensorIndex := env.sensorIndex } i⟩]) := by
  have hoor : ¬(0 > i ∨ env.maxZoomSupported - 1 < i) := by omega
  simp only [doZoom, hv, hw]
  rw [if_neg hprev, if_neg hoor]
  simp [NO_ERROR]

/-- A failed hardware apply: the write is issued, the call returns `-1`
and `mPreviousZoomIndx` is not updated. -/
theorem doZoom_fail_eq (env : ZoomEnv) (s : ZoomState) (i : Int)
    (hprev : ¬(s.previousZoomIndx = i ∧
        (i ≠ 0 ∨ (env.capModeIsVideo = s.prevZoomModeIsVideo ∧
                  env.sensorIndex = s.prevZoomSensorIndex))))
    (hv : env.componentStateInvalid = false)
    (h0 : 0 ≤ i) (h1 : i ≤ env.maxZoomSupported - 1)
    (hw : env.hwWriteOk = false) :
    doZoom env s i =
      ({ s with prevZoomModeIsVideo := env.capModeIsVideo,
                prevZoomSensorIndex := env.sensorIndex },
       -1,
       [⟨i, getZoomStep env
             { s with prevZoomModeIsVideo := env.capModeIsVideo,
                      prevZoomSensorIndex := env.sensorIndex } i⟩]) := by
  have hoor : ¬(0 > i ∨ env.maxZoomSupported - 1 < i) := by omega
  simp only [doZoom, hv, hw]
  rw [if_neg hprev, if_neg hoor]
  simp [NO_ERROR]

/-- With a valid component, an in-range index and a working hardware sink,
`doZoom` reports success (whether it wrote or hit the idempotence guard). -/
theorem doZoom_ret_ok (env : ZoomEnv) (s : ZoomState) (i : Int)
    (hv : env.componentStateInvalid = false)
    (h0 : 0 ≤ i) (h1 : i ≤ env.maxZoomSupported - 1)
    (hw : env.hwWriteOk = true) :
    (doZoom env s i).2.1 = NO_ERROR := by
  by_cases hc : s.previousZoomIndx = i ∧
      (i ≠ 0 ∨ (env.capModeIsVideo = s.prevZoomModeIsVideo ∧
                env.sensorIndex = s.prevZoomSensorIndex))
  · rw [doZoom_noop env s i hc.1 hc.2]
  · rw [doZoom_write_eq env s i hc hv h0 h1 hw]

/-! ### Helper lemmas about `advanceZoom` -/

/-- When no deferred immediate-zoom update is pending, the trailing block
of `advanceZoom` only clears `mZoomUpdating`. -/
theorem advanceTail_no_update (env : ZoomEnv) (p : ZoomState × AdvanceOut)
    (h : p.1.zoomUpdate = false) :
    advanceTail env p = ({ p.1 with zoomUpdating := false }, p.2) := by
  simp only [advanceTail, h]
  rw [if_neg (by simp)]

/-- When a deferred immediate-zoom update is pending, the trailing block
of `advanceZoom` applies the target index and re-arms `mZoomUpdating`. -/
theorem advanceTail_update (env : ZoomEnv) (p : ZoomState × AdvanceOut)
    (h : p.1.zoomUpdate = true) :
    advanceTail env p =
      ({ (doZoom env p.1 p.1.targetZoomIdx).1 with
            zoomUpdate := false, zoomUpdating := true },
       { p.2 with
            writes := p.2.writes ++ (doZoom env p.1 p.1.targetZoomIdx).2.2 }) := by
  simp only [advanceTail, h]
  rw [if_pos trivial]

/-- The `mReturnZoomStatus` branch of `advanceZoom`: one forced step by
`mZoomInc`, target collapsed onto current, final notification. -/
theorem advanceZoom_return_branch (env : ZoomEnv) (zoomActive : Bool)
    (s : ZoomState) (hrz : s.returnZoomStatus = true) (hzu : s.zoomUpdate = false) :
    advanceZoom env zoomActive s =
      ({ (doZoom env
            { s with currentZoomIdx := s.currentZoomIdx + s.zoomInc,
                     targetZoomIdx := s.currentZoomIdx + s.zoomInc,
                     returnZoomStatus := false }
            (s.currentZoomIdx + s.zoomInc)).1 with zoomUpdating := false },
       ⟨(doZoom env
            { s with currentZoomIdx := s.currentZoomIdx + s.zoomInc,
                     targetZoomIdx := s.currentZoomIdx + s.zoomInc,
                     returnZoomStatus := false }
            (s.currentZoomIdx + s.zoomInc)).2.1,
        (doZoom env
            { s with currentZoomIdx := s.currentZoomIdx + s.zoomInc,
                     targetZoomIdx := s.currentZoomIdx + s.zoomInc,
                     returnZoomStatus := false }
            (s.currentZoomIdx + s.zoomInc)).2.2,
        [((doZoom env
            { s with currentZoomIdx := s.currentZoomIdx + s.zoomInc,
                     targetZoomIdx := s.currentZoomIdx + s.zoomInc,
                     returnZoomStatus := false }
            (s.currentZoomIdx + s.zoomInc)).1.currentZoomIdx, true)], false⟩) := by
  have hcore : advanceCore env zoomActive s =
      ((doZoom env
          { s with currentZoomIdx := s.currentZoomIdx + s.zoomInc,
                   targetZoomIdx := s.currentZoomIdx + s.zoomInc,
                   returnZoomStatus := false }
          (s.currentZoomIdx + s.zoomInc)).1,
       ⟨(doZoom env
          { s with currentZoomIdx := s.currentZoomIdx + s.zoomInc,
                   targetZoomIdx := s.currentZoomIdx + s.zoomInc,
                   returnZoomStatus := false }
          (s.currentZoomIdx + s.zoomInc)).2.1,
        (doZoom env
          { s with currentZoomIdx := s.currentZoomIdx + s.zoomInc,
                   targetZoomIdx := s.currentZoomIdx + s.zoomInc,
                   returnZoomStatus := false }
          (s.currentZoomIdx + s.zoomInc)).2.2,
        [((doZoom env
          { s with currentZoomIdx := s.currentZoomIdx + s.zoomInc,
                   targetZoomIdx := s.currentZoomIdx + s.zoomInc,
                   returnZoomStatus := false }
          (s.currentZoomIdx + s.zoomInc)).1.currentZoomIdx, true)], false⟩) := by
    simp only [advanceCore, hrz]
    rw [if_pos trivial]
  rw [advanceZoom, hcore, advanceTail_no_update]
  have hz := (doZoom_preserves env
      { s with currentZoomIdx := s.currentZoomIdx + s.zoomInc,
               targetZoomIdx := s.currentZoomIdx + s.zoomInc,
               returnZoomStatus := false }
      (s.currentZoomIdx + s.zoomInc)).2.2.2.2.2.1
  exact hz.trans hzu

/-- The settled branches of `advanceCore`: current equals target and no
return-status flag means no step, no write, no notification; the exit
transition is requested exactly when the state machine still reports
`ZOOM_ACTIVE`. -/
theorem advanceCore_settled (env : ZoomEnv) (zoomActive : Bool) (s : ZoomState)
    (hrs : s.returnZoomStatus = false)
    (heq : s.currentZoomIdx = s.targetZoomIdx) :
    advanceCore env zoomActive s =
      (s, ⟨if zoomActive then bridgeExitRet env else NO_ERROR, [], [],
           zoomActive⟩) := by
  simp only [advanceCore, hrs]
  rw [if_neg (by simp)]
  rw [if_neg (by simpa using heq)]
  cases zoomActive
  · rw [if_neg (by simp)]
    rfl
  · rw [if_pos ⟨heq, rfl⟩]
    rfl

/-- An intermediate smooth-zoom tick: still short of the target after the
step, so the subscriber is notified with `isFinalStep = false` and no exit
transition is requested. -/
theorem advanceZoom_inter (env : ZoomEnv) (s : ZoomState)
    (hrs : s.returnZoomStatus = false) (hzu : s.zoomUpdate = false)
    (hne : s.currentZoomIdx ≠ s.targetZoomIdx)
    (hne2 : s.currentZoomIdx + stepDir s.currentZoomIdx s.targetZoomIdx ≠
            s.targetZoomIdx) :
    (advanceZoom env true s).1.currentZoomIdx =
        s.currentZoomIdx + stepDir s.currentZoomIdx s.targetZoomIdx ∧
    (advanceZoom env true s).1.targetZoomIdx = s.targetZoomIdx ∧
    (advanceZoom env true s).1.returnZoomStatus = false ∧
    (advanceZoom env true s).1.zoomUpdate = false ∧
    (advanceZoom env true s).2.notifs =
        [(s.currentZoomIdx + stepDir s.currentZoomIdx s.targetZoomIdx, false)] ∧
    (advanceZoom env true s).2.exitRequested = false := by
  obtain ⟨hp1, hp2, hp3, hp4, hp5, hp6, hp7⟩ :=
    doZoom_preserves env
      { s with zoomInc := stepDir s.currentZoomIdx s.targetZoomIdx,
               currentZoomIdx :=
                 s.currentZoomIdx + stepDir s.currentZoomIdx s.targetZoomIdx }
      (s.currentZoomIdx + stepDir s.currentZoomIdx s.targetZoomIdx)
  have hcore : advanceCore env true s =
      ((doZoom env
          { s with zoomInc := stepDir s.currentZoomIdx s.targetZoomIdx,
                   currentZoomIdx :=
                     s.currentZoomIdx + stepDir s.currentZoomIdx s.targetZoomIdx }
          (s.currentZoomIdx + stepDir s.currentZoomIdx s.targetZoomIdx)).1,
       ⟨(doZoom env
          { s with zoomInc := stepDir s.currentZoomIdx s.targetZoomIdx,
                   currentZoomIdx :=
                     s.currentZoomIdx + stepDir s.currentZoomIdx s.targetZoomIdx }
          (s.currentZoomIdx + stepDir s.currentZoomIdx s.targetZoomIdx)).2.1,
        (doZoom env
          { s with zoomInc := stepDir s.currentZoomIdx s.targetZoomIdx,
                   currentZoomIdx :=
                     s.currentZoomIdx + stepDir s.currentZoomIdx s.targetZoomIdx }
          (s.currentZoomIdx + stepDir s.currentZoomIdx s.targetZoomIdx)).2.2,
        [(s.currentZoomIdx + stepDir s.currentZoomIdx s.targetZoomIdx, false)],
        false⟩) := by
    simp only [advanceCore]
    rw [if_neg (show ¬(s.returnZoomStatus = true) by simp [hrs])]
    rw [if_pos hne]
    rw [if_pos trivial, if_pos trivial]
    rw [if_neg (by rw [hp1, hp2]; exact hne2)]
    rw [hp1]
  rw [advanceZoom, hcore, advanceTail_no_update env _ (hp6.trans hzu)]
  exact ⟨hp1, hp2, hp4.trans hrs, hp6.trans hzu, rfl, rfl⟩

/-- The final smooth-zoom tick: the step lands on the target, the
subscriber is notified with `isFinalStep = true` and the
`CAMERA_STOP_SMOOTH_ZOOM` transition is requested. -/
theorem advanceZoom_final (env : ZoomEnv) (s : ZoomState)
    (hrs : s.returnZoomStatus = false) (hzu : s.zoomUpdate = false)
    (hne : s.currentZoomIdx ≠ s.targetZoomIdx)
    (heq : s.currentZoomIdx + stepDir s.currentZoomIdx s.targetZoomIdx =
           s.targetZoomIdx)
    (hv : env.componentStateInvalid = false) (hw : env.hwWriteOk = true)
    (h0 : 0 ≤ s.targetZoomIdx) (h1 : s.targetZoomIdx ≤ env.maxZoomSupported - 1) :
    (advanceZoom env true s).1.currentZoomIdx = s.targetZoomIdx ∧
    (advanceZoom env true s).1.targetZoomIdx = s.targetZoomIdx ∧
    (advanceZoom env true s).1.returnZoomStatus = false ∧
    (advanceZoom env true s).1.zoomUpdate = false ∧
    (advanceZoom env true s).2.notifs = [(s.targetZoomIdx, true)] ∧
    (advanceZoom env true s).2.exitRequested = true := by
  obtain ⟨hp1, hp2, hp3, hp4, hp5, hp6, hp7⟩ :=
    doZoom_preserves env
      { s with zoomInc := stepDir s.currentZoomIdx s.targetZoomIdx,
               currentZoomIdx :=
                 s.currentZoomIdx + stepDir s.currentZoomIdx s.targetZoomIdx }
      (s.currentZoomIdx + stepDir s.currentZoomIdx s.targetZoomIdx)
  have hret := doZoom_ret_ok env
      { s with zoomInc := stepDir s.currentZoomIdx s.targetZoomIdx,
               currentZoomIdx :=
                 s.currentZoomIdx + stepDir s.currentZoomIdx s.targetZoomIdx }
      (s.currentZoomIdx + stepDir s.currentZoomIdx s.targetZoomIdx)
      hv (by rw [heq]; exact h0) (by rw [heq]; exact h1) hw
  have hcore : advanceCore env true s =
      ({ (doZoom env
          { s with zoomInc := stepDir s.currentZoomIdx s.targetZoomIdx,
                   currentZoomIdx :=
                     s.currentZoomIdx + stepDir s.currentZoomIdx s.targetZoomIdx }
          (s.currentZoomIdx + stepDir s.currentZoomIdx s.targetZoomIdx)).1 with
            returnZoomStatus := false },
       ⟨bridgeExitRet env,
        (doZoom env
          { s with zoomInc := stepDir s.currentZoomIdx s.targetZoomIdx,
                   currentZoomIdx :=
                     s.currentZoomIdx + stepDir s.currentZoomIdx s.targetZoomIdx }
          (s.currentZoomIdx + stepDir s.currentZoomIdx s.targetZoomIdx)).2.2,
        [(s.currentZoomIdx + stepDir s.currentZoomIdx s.targetZoomIdx, true)],
        true⟩) := by
    simp only [advanceCore]
    rw [if_neg (show ¬(s.returnZoomStatus = true) by simp [hrs])]
    rw [if_pos hne]
    rw [if_pos trivial, if_pos trivial]
    rw [if_pos (by rw [hp1, hp2]; exact heq)]
    rw [if_pos hret]
    rw [hp1]
  rw [advanceZoom, hcore, advanceTail_no_update env _ (hp6.trans hzu)]
  refine ⟨hp1.trans heq, hp2, rfl, hp6.trans hzu, by rw [heq], rfl⟩

theorem advanceRun_zero (env : ZoomEnv) (a : Bool) (s : ZoomState) :
    advanceRun env a 0 s = (s, []) := rfl

theorem advanceRun_succ (env : ZoomEnv) (a : Bool) (n : Nat) (s : ZoomState) :
    advanceRun env a (n + 1) s =
      ((advanceRun env a n (advanceZoom env a s).1).1,
       (advanceZoom env a s).2 :: (advanceRun env a n (advanceZoom env a s).1).2) :=
  rfl

/-- The smooth-zoom animation loop: starting `n + 1` table steps away from
the target, with the state machine reporting `ZOOM_ACTIVE` on every tick,
a valid component and a working hardware sink, `n + 1` `advanceZoom` calls
reach the target; the notification and exit-request sequences are exactly
the expected ones, and after `k ≤ n + 1` ticks the current index has moved
by exactly `k` steps in the fixed direction. -/
theorem smoothRunAux (env : ZoomEnv)
    (hv : env.componentStateInvalid = false) (hw : env.hwWriteOk = true) :
    ∀ n (s : ZoomState),
      s.returnZoomStatus = false → s.zoomUpdate = false →
      0 ≤ s.currentZoomIdx → s.currentZoomIdx ≤ env.maxZoomSupported - 1 →
      0 ≤ s.targetZoomIdx → s.targetZoomIdx ≤ env.maxZoomSupported - 1 →
      (s.targetZoomIdx - s.currentZoomIdx).natAbs = n + 1 →
      (advanceRun env true (n + 1) s).1.currentZoomIdx = s.targetZoomIdx ∧
      (advanceRun env true (n + 1) s).1.targetZoomIdx = s.targetZoomIdx ∧
      List.map AdvanceOut.notifs (advanceRun env true (n + 1) s).2 =
        stepNotifs s.currentZoomIdx s.targetZoomIdx (n + 1) ∧
      List.map AdvanceOut.exitRequested (advanceRun env true (n + 1) s).2 =
        exitFlags (n + 1) ∧
      ∀ k, k ≤ n + 1 →
        (advanceRun env true k s).1.currentZoomIdx =
          s.currentZoomIdx + k * stepDir s.currentZoomIdx s.targetZoomIdx ∧
        (advanceRun env true k s).1.targetZoomIdx = s.targetZoomIdx := by
  intro n
  induction n with
  | zero =>
    intro s h1 h2 h3 h4 h5 h6 habs
    have hne : s.currentZoomIdx ≠ s.targetZoomIdx := by omega
    have heq : s.currentZoomIdx + stepDir s.currentZoomIdx s.targetZoomIdx =
        s.targetZoomIdx := by
      by_cases hlt : s.currentZoomIdx < s.targetZoomIdx
      · rw [stepDir, if_pos hlt]; omega
      · rw [stepDir, if_neg hlt]; omega
    obtain ⟨q1, q2, q3, q4, q5, q6⟩ :=
      advanceZoom_final env s h1 h2 hne heq hv hw h5 h6
    refine ⟨?_, ?_, ?_, ?_, ?_⟩
    · rw [advanceRun_succ, advanceRun_zero]; exact q1
    · rw [advanceRun_succ, advanceRun_zero]; exact q2
    · rw [advanceRun_succ, advanceRun_zero]
      simp only [List.map_cons, List.map_nil, stepNotifs, q5, heq]
      simp
    · rw [advanceRun_succ, advanceRun_zero]
      simp only [List.map_cons, List.map_nil, exitFlags, q6]
    · intro k hk
      interval_cases k
      · rw [advanceRun_zero]; constructor
        · push_cast; ring
        · rfl
      · rw [advanceRun_succ, advanceRun_zero]
        refine ⟨?_, q2⟩
        rw [q1]
        simp only [Nat.cast_one, one_mul]
        exact heq.symm
  | succ m ih =>
    intro s h1 h2 h3 h4 h5 h6 habs
    have hne : s.currentZoomIdx ≠ s.targetZoomIdx := by omega
    have hstep : (s.currentZoomIdx < s.targetZoomIdx ∧
                    stepDir s.currentZoomIdx s.targetZoomIdx = 1) ∨
                 (s.targetZoomIdx < s.currentZoomIdx ∧
                    stepDir s.currentZoomIdx s.targetZoomIdx = -1) := by
      by_cases hlt : s.currentZoomIdx < s.targetZoomIdx
      · exact Or.inl ⟨hlt, by rw [stepDir, if_pos hlt]⟩
      · exact Or.inr ⟨by omega, by rw [stepDir, if_neg hlt]⟩
    have hne2 : s.currentZoomIdx + stepDir s.currentZoomIdx s.targetZoomIdx ≠
        s.targetZoomIdx := by
      rcases hstep with ⟨h, hd⟩ | ⟨h, hd⟩ <;> rw [hd] <;> omega
    obtain ⟨q1, q2, q3, q4, q5, q6⟩ := advanceZoom_inter env s h1 h2 hne hne2
    have hd' : stepDir (advanceZoom env true s).1.currentZoomIdx
        (advanceZoom env true s).1.targetZoomIdx =
        stepDir s.currentZoomIdx s.targetZoomIdx := by
      rw [q1, q2]
      rcases hstep with ⟨h, hd⟩ | ⟨h, hd⟩ <;> rw [hd] <;>
        rw [stepDir] <;> rw [hd] at * <;>
        [rw [if_pos (by omega)]; rw [if_neg (by omega)]]
    have hr0 : 0 ≤ (advanceZoom env true s).1.currentZoomIdx := by
      rw [q1]; rcases hstep with ⟨h, hd⟩ | ⟨h, hd⟩ <;> rw [hd] <;> omega
    have hr1 : (advanceZoom env true s).1.currentZoomIdx ≤
        env.maxZoomSupported - 1 := by
      rw [q1]; rcases hstep with ⟨h, hd⟩ | ⟨h, hd⟩ <;> rw [hd] <;> omega
    have habs' : ((advanceZoom env true s).1.targetZoomIdx -
        (advanceZoom env true s).1.currentZoomIdx).natAbs = m + 1 := by
      rw [q1, q2]; rcases hstep with ⟨h, hd⟩ | ⟨h, hd⟩ <;> rw [hd] <;> omega
    obtain ⟨w1, w2, w3, w4, w5⟩ := ih (advanceZoom env true s).1 q3 q4 hr0 hr1
      (by rw [q2]; exact h5) (by rw [q2]; exact h6) habs'
    refine ⟨?_, ?_, ?_, ?_, ?_⟩
    · rw [advanceRun_succ]
      rw [w1, q2]
    · rw [advanceRun_succ]
      rw [w2, q2]
    · rw [advanceRun_succ]
      simp only [List.map_cons]
      rw [q5, w3, q1, q2]
      show _ = stepNotifs s.currentZoomIdx s.targetZoomIdx (m + 1 + 1)
      conv_rhs => rw [stepNotifs]
      rw [decide_eq_false hne2]
    · rw [advanceRun_succ]
      simp only [List.map_cons]
      rw [q6, w4]
      rfl
    · intro k hk
      match k with
      | 0 =>
        rw [advanceRun_zero]
        exact ⟨by push_cast; ring, rfl⟩
      | Nat.succ j =>
        have hj : j ≤ m + 1 := by omega
        obtain ⟨u1, u2⟩ := w5 j hj
        rw [advanceRun_succ]
        refine ⟨?_, u2.trans q2⟩
        rw [u1, hd', q1]
        push_cast; ring

/-! ### Claims -/

/-- C3 (counterexample): the claim says an out-of-range `setZoom` "fails
with an OutOfRange error".  In the code the local `ret` of
`setParametersZoom` is never assigned after its `NO_ERROR` initialisation:
with `maxZoomSupported = 3`, requesting index `5` returns `NO_ERROR`
(success), not an error — only the "state unchanged" half of the claim
holds. -/
theorem claim3_counterexample :
    (setParametersZoom env0 false 5 st0).2.1 = NO_ERROR ∧
    (setParametersZoom env0 false 5 st0).1 = st0 := by decide

/-- C3 (amended): for every requested index outside
`[0, maxZoomSupported)`, `setZoom` (`setParametersZoom`) leaves the whole
session state unchanged and issues no hardware write, but returns
`NO_ERROR` rather than an OutOfRange error. -/
theorem claim3_out_of_range_noop (env : ZoomEnv) (zoomActive : Bool)
    (z : Int) (s : ZoomState)
    (h : ¬(0 ≤ z ∧ z < env.maxZoomSupported)) :
    setParametersZoom env zoomActive z s = (s, NO_ERROR, []) := by
  rw [setParametersZoom]
  cases zoomActive
  · rw [if_pos (by simp)]
    rw [if_neg h]
  · rw [if_neg (by simp)]

/-- C3 (witness): the amended theorem at `maxZoomSupported = 3`,
requested index `5`. -/
theorem claim3_witness :
    setParametersZoom env0 false 5 st0 = (st0, NO_ERROR, []) :=
  claim3_out_of_range_noop env0 false 5 st0 (by decide)

/-- C4 (counterexample): the claim says `setZoom` during an active smooth
zoom "returns a Busy error to the caller".  With `ZOOM_ACTIVE` set and the
valid index `1`, `setParametersZoom` skips its body and returns `NO_ERROR`
(success), not an error — only the no-op half of the claim holds. -/
theorem claim4_counterexample :
    (setParametersZoom env0 true 1 st0).2.1 = NO_ERROR ∧
    (setParametersZoom env0 true 1 st0).1 = st0 := by decide

/-- C4 (amended): for every requested index, `setZoom`
(`setParametersZoom`) invoked while the capture-state machine reports
`ZOOM_ACTIVE` leaves the session state unchanged and issues no hardware
write, but returns `NO_ERROR` rather than a Busy error. -/
theorem claim4_busy_noop (env : ZoomEnv) (z : Int) (s : ZoomState) :
    setParametersZoom env true z s = (s, NO_ERROR, []) := by
  rw [setParametersZoom, if_neg (by simp)]

/-- C6: two consecutive `doZoom` calls with the same index under the same
quirk context (same environment) issue exactly one hardware write: the
first call writes and records the index, the second hits the idempotence
guard and is a no-op returning success. -/
theorem claim6_idempotent_apply (env : ZoomEnv) (s : ZoomState) (i : Int)
    (hv : env.componentStateInvalid = false) (hw : env.hwWriteOk = true)
    (h0 : 0 ≤ i) (h1 : i ≤ env.maxZoomSupported - 1)
    (hprev : s.previousZoomIndx ≠ i) :
    List.map HwWrite.index (doZoom env s i).2.2 = [i] ∧
    doZoom env (doZoom env s i).1 i = ((doZoom env s i).1, NO_ERROR, []) := by
  have hne : ¬(s.previousZoomIndx = i ∧
      (i ≠ 0 ∨ (env.capModeIsVideo = s.prevZoomModeIsVideo ∧
                env.sensorIndex = s.prevZoomSensorIndex))) :=
    fun hx => hprev hx.1
  have he := doZoom_write_eq env s i hne hv h0 h1 hw
  constructor
  · rw [he]
    rfl
  · rw [he]
    exact doZoom_noop env _ i rfl (Or.inr ⟨rfl, rfl⟩)

/-- C6 (witness): environment `env0`, baseline state, index `1`. -/
theorem claim6_witness :
    List.map HwWrite.index (doZoom env0 st0 1).2.2 = [1] ∧
    doZoom env0 (doZoom env0 st0 1).1 1 = ((doZoom env0 st0 1).1, NO_ERROR, []) :=
  claim6_idempotent_apply env0 st0 1 rfl rfl (by decide) (by decide) (by decide)

/-- C7: if the hardware sink rejects the write, `doZoom` returns `-1`,
leaves `mPreviousZoomIndx` unchanged, and a subsequent call with the same
index issues the hardware write again instead of hitting the idempotence
no-op path. -/
theorem claim7_hw_failure_retries (env : ZoomEnv) (s : ZoomState) (i : Int)
    (hv : env.componentStateInvalid = false) (hwf : env.hwWriteOk = false)
    (h0 : 0 ≤ i) (h1 : i ≤ env.maxZoomSupported - 1)
    (hprev : s.previousZoomIndx ≠ i) :
    (doZoom env s i).2.1 = -1 ∧
    (doZoom env s i).1.previousZoomIndx = s.previousZoomIndx ∧
    List.map HwWrite.index (doZoom env (doZoom env s i).1 i).2.2 = [i] := by
  have hne : ¬(s.previousZoomIndx = i ∧
      (i ≠ 0 ∨ (env.capModeIsVideo = s.prevZoomModeIsVideo ∧
                env.sensorIndex = s.prevZoomSensorIndex))) :=
    fun hx => hprev hx.1
  have he := doZoom_fail_eq env s i hne hv h0 h1 hwf
  refine ⟨by rw [he], by rw [he], ?_⟩
  rw [he]
  show List.map HwWrite.index
      (doZoom env
        { s with prevZoomModeIsVideo := env.capModeIsVideo,
                 prevZoomSensorIndex := env.sensorIndex } i).2.2 = [i]
  rw [doZoom_fail_eq env
      { s with prevZoomModeIsVideo := env.capModeIsVideo,
               prevZoomSensorIndex := env.sensorIndex } i
      (fun hx => hprev hx.1) hv h0 h1 hwf]
  rfl

/-- C7 (witness): failing hardware sink, baseline state, index `1`. -/
theorem claim7_witness :
    (doZoom envHwFail st0 1).2.1 = -1 ∧
    (doZoom envHwFail st0 1).1.previousZoomIndx = st0.previousZoomIndx ∧
    List.map HwWrite.index (doZoom envHwFail (doZoom envHwFail st0 1).1 1).2.2 =
      [1] :=
  claim7_hw_failure_retries envHwFail st0 1 rfl rfl (by decide) (by decide)
    (by decide)

/-- C8 (counterexample): the claim says `getZoomStep` "fails with an
OutOfRange error rather than performing an out-of-bounds access" for
indices outside the table.  The C++ `getZoomStep` returns a raw `int32_t`
with no error channel and performs `ZOOM_STEPS[index]` unchecked: at
index `61` (the table length) and at index `-1` the read is out of
bounds — modelled as `none`, i.e. no defined result and no error code. -/
theorem claim8_counterexample :
    getZoomStep env0 st0 61 = none ∧ getZoomStep env0 st0 (-1) = none := by
  decide

/-- C8 (amended): `getZoomStep` performs no range check of its own: for
every in-range index it deterministically returns a defined scale factor,
while for every index outside `[0, ZOOM_STAGES)` the table access is out
of bounds (no defined result); the OutOfRange rejection lives in its
caller `doZoom`, not here. -/
theorem claim8_lookup_defined_iff_in_range (env : ZoomEnv) (s : ZoomState)
    (index : Int) :
    (0 ≤ index ∧ index < (ZOOM_STAGES : Int) →
      ∃ v, getZoomStep env s index = some v) ∧
    (¬(0 ≤ index ∧ index < (ZOOM_STAGES : Int)) →
      getZoomStep env s index = none) := by
  have h61 : (ZOOM_STAGES : Int) = 61 := rfl
  have hlen : ZOOM_STEPS.length = 61 := rfl
  constructor
  · rintro ⟨hi0, hi1⟩
    rw [h61] at hi1
    rw [getZoomStep]
    by_cases hq : index ≠ 0 ∨ ¬ s.prevZoomModeIsVideo
    · rw [if_pos hq, if_pos hi0]
      have hlt : index.toNat < ZOOM_STEPS.length := by omega
      exact ⟨ZOOM_STEPS[index.toNat], List.getElem?_eq_getElem hlt⟩
    · rw [if_neg hq]
      by_cases hs : env.sensorIndex = 1
      · rw [if_pos hs]; exact ⟨_, rfl⟩
      · rw [if_neg hs]; exact ⟨_, rfl⟩
  · intro h
    rw [h61] at h
    rw [getZoomStep]
    have h0 : index ≠ 0 := by omega
    rw [if_pos (Or.inl h0)]
    by_cases hi0 : 0 ≤ index
    · rw [if_pos hi0]
      have hge : ZOOM_STEPS.length ≤ index.toNat := by omega
      exact List.getElem?_eq_none hge
    · rw [if_neg hi0]

/-- C8 (witness): the amended theorem at the in-range index `5` and the
out-of-range index `70`. -/
theorem claim8_witness :
    (∃ v, getZoomStep env0 st0 5 = some v) ∧ getZoomStep env0 st0 70 = none :=
  ⟨(claim8_lookup_defined_iff_in_range env0 st0 5).1 (by decide),
   (claim8_lookup_defined_iff_in_range env0 st0 70).2 (by decide)⟩

/-- C9: when the requested index equals `mPreviousZoomIndx` and the quirk
context is unchanged, `doZoom` returns success without writing — for every
environment, including one whose OMX component is in `OMX_StateInvalid`
and an index outside `[0, maxZoomSupported)`: the early return precedes
the `NO_ERROR == ret` check, bypassing both error checks. -/
theorem claim9_noop_bypasses_error_checks (env : ZoomEnv) (s : ZoomState)
    (i : Int) (hprev : s.previousZoomIndx = i)
    (hctx : i ≠ 0 ∨ (env.capModeIsVideo = s.prevZoomModeIsVideo ∧
                     env.sensorIndex = s.prevZoomSensorIndex)) :
    doZoom env s i = (s, NO_ERROR, []) :=
  doZoom_noop env s i hprev hctx

/-- C9 (witness): component in `OMX_StateInvalid` and index `99`, far
outside `[0, maxZoomSupported) = [0, 3)` — still a successful no-op. -/
theorem claim9_witness :
    doZoom envInvalid stPrev99 99 = (stPrev99, NO_ERROR, []) :=
  claim9_noop_bypasses_error_checks envInvalid stPrev99 99 rfl
    (Or.inl (by decide))

/-- C10: `stopSmoothZoom` with `mCurrentZoomIdx == mTargetZoomIdx` returns
success and leaves every session field (including `mZoomInc` and
`mReturnZoomStatus`) unchanged, so any later `advanceZoom` behaves exactly
as if `stopSmoothZoom` had never been called. -/
theorem claim10_stop_settled_noop (s : ZoomState)
    (h : s.targetZoomIdx = s.currentZoomIdx) :
    stopSmoothZoom s = (s, NO_ERROR) ∧
    ∀ env zoomActive,
      advanceZoom env zoomActive (stopSmoothZoom s).1 =
        advanceZoom env zoomActive s := by
  have he : stopSmoothZoom s = (s, NO_ERROR) := by
    rw [stopSmoothZoom, if_neg (by simpa using h)]
  exact ⟨he, fun env a => by rw [he]⟩

/-- C10 (witness): the baseline settled state. -/
theorem claim10_witness :
    stopSmoothZoom st0 = (st0, NO_ERROR) ∧
    advanceZoom env0 true (stopSmoothZoom st0).1 = advanceZoom env0 true st0 :=
  ⟨(claim10_stop_settled_noop st0 rfl).1,
   (claim10_stop_settled_noop st0 rfl).2 env0 true⟩

/-- C1: after a successful `startSmoothZoom(target)` from `current`, with
the bridge reporting `ZOOM_ACTIVE` on every tick and every hardware apply
succeeding, `|target - current|` calls to `advanceZoom` reach the target;
each call steps `mCurrentZoomIdx` by exactly one in the fixed direction
(so strictly fewer calls have not yet reached it), every intermediate call
notifies `(index, isFinalStep = false)`, and the final call notifies
`(target, isFinalStep = true)` and requests the exit-from-smooth-zoom
transition (`stepNotifs`/`exitFlags` spell out those two sequences). -/
theorem claim1_smooth_zoom_terminates (env : ZoomEnv) (s : ZoomState)
    (target : Int)
    (hv : env.componentStateInvalid = false) (hw : env.hwWriteOk = true)
    (hzu : s.zoomUpdate = false)
    (hc0 : 0 ≤ s.currentZoomIdx) (hc1 : s.currentZoomIdx < env.maxZoomSupported)
    (ht0 : 0 ≤ target) (ht1 : target < env.maxZoomSupported)
    (hne : target ≠ s.currentZoomIdx) :
    (startSmoothZoom env target s).2 = NO_ERROR ∧
    (advanceRun env true (target - s.currentZoomIdx).natAbs
        (startSmoothZoom env target s).1).1.currentZoomIdx = target ∧
    (∀ k, k ≤ (target - s.currentZoomIdx).natAbs →
      (advanceRun env true k (startSmoothZoom env target s).1).1.currentZoomIdx =
        s.currentZoomIdx + k * stepDir s.currentZoomIdx target) ∧
    (∀ k, k < (target - s.currentZoomIdx).natAbs →
      (advanceRun env true k (startSmoothZoom env target s).1).1.currentZoomIdx ≠
        target) ∧
    List.map AdvanceOut.notifs
        (advanceRun env true (target - s.currentZoomIdx).natAbs
          (startSmoothZoom env target s).1).2 =
      stepNotifs s.currentZoomIdx target (target - s.currentZoomIdx).natAbs ∧
    List.map AdvanceOut.exitRequested
        (advanceRun env true (target - s.currentZoomIdx).natAbs
          (startSmoothZoom env target s).1).2 =
      exitFlags (target - s.currentZoomIdx).natAbs := by
  have hstart : startSmoothZoom env target s =
      ({ s with targetZoomIdx := target, zoomParameterIdx := s.currentZoomIdx,
                returnZoomStatus := false }, NO_ERROR) := by
    rw [startSmoothZoom, if_pos ⟨ht0, ht1⟩]
  have hstart1 : (startSmoothZoom env target s).1 =
      { s with targetZoomIdx := target, zoomParameterIdx := s.currentZoomIdx,
               returnZoomStatus := false } := by rw [hstart]
  obtain ⟨m, hm⟩ : ∃ m, (target - s.currentZoomIdx).natAbs = m + 1 :=
    ⟨(target - s.currentZoomIdx).natAbs - 1, by omega⟩
  obtain ⟨w1, w2, w3, w4, w5⟩ := smoothRunAux env hv hw m
      { s with targetZoomIdx := target, zoomParameterIdx := s.currentZoomIdx,
               returnZoomStatus := false }
      rfl hzu hc0
      (show s.currentZoomIdx ≤ env.maxZoomSupported - 1 by omega) ht0
      (show target ≤ env.maxZoomSupported - 1 by omega)
      (show (target - s.currentZoomIdx).natAbs = m + 1 from hm)
  refine ⟨by rw [hstart], ?_, ?_, ?_, ?_, ?_⟩
  · rw [hstart1, hm]
    exact w1
  · intro k hk
    rw [hstart1]
    exact (w5 k (by omega)).1
  · intro k hk
    rw [hstart1]
    have hval : (advanceRun env true k
        { s with targetZoomIdx := target, zoomParameterIdx := s.currentZoomIdx,
                 returnZoomStatus := false }).1.currentZoomIdx =
        s.currentZoomIdx + k * stepDir s.currentZoomIdx target :=
      (w5 k (by omega)).1
    rw [hval]
    by_cases hlt : s.currentZoomIdx < target
    · rw [stepDir, if_pos hlt, mul_one]
      omega
    · rw [stepDir, if_neg hlt, mul_neg_one]
      omega
  · rw [hstart1, hm]
    exact w3
  · rw [hstart1, hm]
    exact w4

/-- C1 (witness): the spec's own scenario — `maxZoomSupported = 3`,
`startSmoothZoom(2)` from index 0 with the bridge active: two ticks,
first notifying `(1, false)`, second notifying `(2, true)` and requesting
the exit transition. -/
theorem claim1_witness :
    (startSmoothZoom env0 2 st0).2 = NO_ERROR ∧
    (advanceRun env0 true 2 (startSmoothZoom env0 2 st0).1).1.currentZoomIdx = 2 ∧
    (advanceRun env0 true 1 (startSmoothZoom env0 2 st0).1).1.currentZoomIdx = 1 ∧
    (advanceRun env0 true 1 (startSmoothZoom env0 2 st0).1).1.currentZoomIdx ≠ 2 ∧
    List.map AdvanceOut.notifs
        (advanceRun env0 true 2 (startSmoothZoom env0 2 st0).1).2 =
      [[(1, false)], [(2, true)]] ∧
    List.map AdvanceOut.exitRequested
        (advanceRun env0 true 2 (startSmoothZoom env0 2 st0).1).2 =
      [false, true] := by
  obtain ⟨a1, a2, a3, a4, a5, a6⟩ :=
    claim1_smooth_zoom_terminates env0 st0 2 rfl rfl rfl (by decide) (by decide)
      (by decide) (by decide) (by decide)
  exact ⟨a1, a2, (a3 1 (by decide)).trans (by decide), a4 1 (by decide),
    a5.trans (by decide), a6.trans (by decide)⟩

/-- C2: after `stopSmoothZoom` is called while `mCurrentZoomIdx` differs
from `mTargetZoomIdx`, the next `advanceZoom` call — however far the
current index is from the original target — performs exactly one step in
the direction computed at stop time, forces the target onto the new
current index, clears `mReturnZoomStatus`, issues the hardware write for
the new index and notifies subscribers with `isFinalStep = true`. -/
theorem claim2_stop_settles_next_tick (env : ZoomEnv) (zoomActive : Bool)
    (s : ZoomState)
    (hne : s.currentZoomIdx ≠ s.targetZoomIdx) (hzu : s.zoomUpdate = false)
    (hv : env.componentStateInvalid = false) (hw : env.hwWriteOk = true)
    (hprev : s.previousZoomIndx ≠
      s.currentZoomIdx + stepDir s.currentZoomIdx s.targetZoomIdx)
    (h0 : 0 ≤ s.currentZoomIdx + stepDir s.currentZoomIdx s.targetZoomIdx)
    (h1 : s.currentZoomIdx + stepDir s.currentZoomIdx s.targetZoomIdx ≤
      env.maxZoomSupported - 1) :
    (stopSmoothZoom s).2 = NO_ERROR ∧
    (advanceZoom env zoomActive (stopSmoothZoom s).1).1.currentZoomIdx =
      s.currentZoomIdx + stepDir s.currentZoomIdx s.targetZoomIdx ∧
    (advanceZoom env zoomActive (stopSmoothZoom s).1).1.targetZoomIdx =
      s.currentZoomIdx + stepDir s.currentZoomIdx s.targetZoomIdx ∧
    (advanceZoom env zoomActive (stopSmoothZoom s).1).1.returnZoomStatus =
      false ∧
    (advanceZoom env zoomActive (stopSmoothZoom s).1).2.notifs =
      [(s.currentZoomIdx + stepDir s.currentZoomIdx s.targetZoomIdx, true)] ∧
    List.map HwWrite.index
        (advanceZoom env zoomActive (stopSmoothZoom s).1).2.writes =
      [s.currentZoomIdx + stepDir s.currentZoomIdx s.targetZoomIdx] := by
  obtain ⟨c, t, zi, rzs, zu, zup, p, zpi, pv, ps⟩ := s
  dsimp only at hne hzu hprev h0 h1 ⊢
  subst hzu
  have hstop : stopSmoothZoom ⟨c, t, zi, rzs, zu, false, p, zpi, pv, ps⟩ =
      (⟨c, t, stepDir c t, true, zu, false, p, zpi, pv, ps⟩, NO_ERROR) := by
    rw [stopSmoothZoom, if_pos (Ne.symm hne)]
  have hstop1 : (stopSmoothZoom ⟨c, t, zi, rzs, zu, false, p, zpi, pv, ps⟩).1 =
      ⟨c, t, stepDir c t, true, zu, false, p, zpi, pv, ps⟩ := by rw [hstop]
  have hadv := advanceZoom_return_branch env zoomActive
      ⟨c, t, stepDir c t, true, zu, false, p, zpi, pv, ps⟩ rfl rfl
  dsimp only at hadv
  rw [doZoom_write_eq env
      ⟨c + stepDir c t, c + stepDir c t, stepDir c t, false, zu, false, p,
        zpi, pv, ps⟩ (c + stepDir c t)
      (fun hx => hprev hx.1) hv h0 h1 hw] at hadv
  refine ⟨by rw [hstop], ?_, ?_, ?_, ?_, ?_⟩ <;> (rw [hstop1, hadv]; try rfl)

/-- C2 (witness): stopping the `0 → 2` animation and ticking once settles
at index `1` with a final notification and a single hardware write. -/
theorem claim2_witness :
    (stopSmoothZoom stMid).2 = NO_ERROR ∧
    (advanceZoom env0 true (stopSmoothZoom stMid).1).1.currentZoomIdx = 1 ∧
    (advanceZoom env0 true (stopSmoothZoom stMid).1).1.targetZoomIdx = 1 ∧
    (advanceZoom env0 true (stopSmoothZoom stMid).1).1.returnZoomStatus =
      false ∧
    (advanceZoom env0 true (stopSmoothZoom stMid).1).2.notifs = [(1, true)] ∧
    List.map HwWrite.index
        (advanceZoom env0 true (stopSmoothZoom stMid).1).2.writes = [1] := by
  obtain ⟨a1, a2, a3, a4, a5, a6⟩ :=
    claim2_stop_settles_next_tick env0 true stMid (by decide) rfl rfl rfl
      (by decide) (by decide) (by decide)
  exact ⟨a1, a2, a3, a4, a5, a6⟩

/-- C5: with `mZoomUpdating` armed, two `setZoom` requests before the next
`advanceZoom` issue no hardware write themselves; the following
`advanceZoom` applies only the second requested index to hardware (the
first request's index is never individually written). -/
theorem claim5_second_update_wins (env : ZoomEnv) (zoomActive : Bool)
    (s : ZoomState) (z1 z2 : Int)
    (hu : s.zoomUpdating = true) (hrs : s.returnZoomStatus = false)
    (hz1 : 0 ≤ z1 ∧ z1 < env.maxZoomSupported)
    (hz2 : 0 ≤ z2 ∧ z2 < env.maxZoomSupported)
    (hv : env.componentStateInvalid = false) (hw : env.hwWriteOk = true)
    (hprev : s.previousZoomIndx ≠ z2) :
    (setParametersZoom env false z1 s).2.2 = [] ∧
    (setParametersZoom env false z2
        (setParametersZoom env false z1 s).1).2.2 = [] ∧
    List.map HwWrite.index
        (advanceZoom env zoomActive
          (setParametersZoom env false z2
            (setParametersZoom env false z1 s).1).1).2.writes = [z2] ∧
    (advanceZoom env zoomActive
        (setParametersZoom env false z2
          (setParametersZoom env false z1 s).1).1).1.currentZoomIdx = z2 := by
  obtain ⟨c, t, zi, rzs, zu, zup, p, zpi, pv, ps⟩ := s
  dsimp only at hu hrs hprev ⊢
  subst hu
  subst hrs
  have ha : setParametersZoom env false z1
      ⟨c, t, zi, false, true, zup, p, zpi, pv, ps⟩ =
      (⟨z1, z1, zi, false, true, true, p, zpi, pv, ps⟩, NO_ERROR, []) := by
    rw [setParametersZoom]
    rw [if_pos (by simp)]
    rw [if_pos hz1]
    rw [if_neg (by simp)]
  have ha1 : (setParametersZoom env false z1
      ⟨c, t, zi, false, true, zup, p, zpi, pv, ps⟩).1 =
      ⟨z1, z1, zi, false, true, true, p, zpi, pv, ps⟩ := by rw [ha]
  have hb : setParametersZoom env false z2
      ⟨z1, z1, zi, false, true, true, p, zpi, pv, ps⟩ =
      (⟨z2, z2, zi, false, true, true, p, zpi, pv, ps⟩, NO_ERROR, []) := by
    rw [setParametersZoom]
    rw [if_pos (by simp)]
    rw [if_pos hz2]
    rw [if_neg (by simp)]
  have hb1 : (setParametersZoom env false z2
      ⟨z1, z1, zi, false, true, true, p, zpi, pv, ps⟩).1 =
      ⟨z2, z2, zi, false, true, true, p, zpi, pv, ps⟩ := by rw [hb]
  refine ⟨by rw [ha], by rw [ha1, hb], ?_, ?_⟩ <;>
    (rw [ha1, hb1, advanceZoom,
      advanceCore_settled env zoomActive
        ⟨z2, z2, zi, false, true, true, p, zpi, pv, ps⟩ rfl rfl,
      advanceTail_update env
        (⟨z2, z2, zi, false, true, true, p, zpi, pv, ps⟩,
         ⟨if zoomActive then bridgeExitRet env else NO_ERROR, [], [],
          zoomActive⟩) rfl,
      doZoom_write_eq env ⟨z2, z2, zi, false, true, true, p, zpi, pv, ps⟩ z2
        (fun hx => hprev hx.1) hv hz2.1
        (show z2 ≤ env.maxZoomSupported - 1 by omega) hw];
     try rfl)

/-- C5 (witness): requests `1` then `2` while an update is in flight; the
tick writes only index `2`. -/
theorem claim5_witness :
    (setParametersZoom env0 false 1 stUpdating).2.2 = [] ∧
    (setParametersZoom env0 false 2
        (setParametersZoom env0 false 1 stUpdating).1).2.2 = [] ∧
    List.map HwWrite.index
        (advanceZoom env0 false
          (setParametersZoom env0 false 2
            (setParametersZoom env0 false 1 stUpdating).1).1).2.writes = [2] ∧
    (advanceZoom env0 false
        (setParametersZoom env0 false 2
          (setParametersZoom env0 false 1 stUpdating).1).1).1.currentZoomIdx =
      2 :=
  claim5_second_update_wins env0 false stUpdating 1 2 rfl rfl (by decide)
    (by decide) rfl rfl (by decide)

end OMXZoom
